import Mathlib

/-!
Shallow embedding of the audio control core of the `voice-immersion`
repository (`src/lib.rs`): the pose-derived gain computation and the
room state machine of the control loop in `run_out`, the
`room_amplitude_factor` helper, the live-capture input node
(`InputNode::tick`), and the capture-side queue feeding (`read_data`).

Modelling conventions:
* `f32` scalars are modelled as real numbers.  A computation whose `f32`
  result would be non-finite (NaN or an infinity) is modelled by
  `Option ℝ`, with `none` standing for the non-finite outcome; the only
  place this matters is the division in the orientation coefficient,
  where a zero denominator yields NaN (`0.0/0.0`) or an infinity
  (`x/0.0`), both non-finite.
* bounded crossbeam channels are modelled as lists together with a
  capacity; `try_send` appends when there is room and reports failure
  otherwise, `try_recv` pops the front, and both return at once.
* the `expect` (panic) on the settings channel send in `run_out` is
  modelled by `Except.error` carrying the panic message.
-/

noncomputable section

namespace VoiceImmersion

open Filter

/-- Embedding of `nalgebra::Vector3<f32>` with real scalars. -/
structure Vector3 where
  x : ℝ
  y : ℝ
  z : ℝ

/-- Cross product, as `nalgebra`'s `Vector3::cross`. -/
def Vector3.cross (a b : Vector3) : Vector3 :=
  ⟨a.y * b.z - a.z * b.y, a.z * b.x - a.x * b.z, a.x * b.y - a.y * b.x⟩

/-- Dot product, as `nalgebra`'s `Vector3::dot`. -/
def Vector3.dot (a b : Vector3) : ℝ :=
  a.x * b.x + a.y * b.y + a.z * b.z

/-- Componentwise negation, as the `-` operator on `Vector3`. -/
def Vector3.neg (a : Vector3) : Vector3 :=
  ⟨-a.x, -a.y, -a.z⟩

/-- Euclidean norm, as `nalgebra`'s `Vector3::norm`. -/
def Vector3.norm (a : Vector3) : ℝ :=
  Real.sqrt (a.x ^ 2 + a.y ^ 2 + a.z ^ 2)

/-- The constant `UP_VECTOR: Vector3<f32> = Vector3::new(0.0, 1.0, 0.0)`. -/
def UP_VECTOR : Vector3 := ⟨0, 1, 0⟩

/-- Rust's `f32::signum` on finite inputs: `1.0` for positive numbers and
`+0.0`, `-1.0` for negative numbers.  (`-0.0` has no separate image in `ℝ`;
the source never feeds a negative zero from a genuinely negative quantity
here.) -/
def signum (x : ℝ) : ℝ :=
  if x < 0 then -1 else 1

/-- Division of finite `f32` values with non-finiteness tracking: dividing
by zero produces NaN (`0/0`) or an infinity (`x/0`), both modelled as
`none`. -/
def fdiv (a b : ℝ) : Option ℝ :=
  if b = 0 then none else some (a / b)

/-- The `InAnotherRoom` parameter record of `src/lib.rs`. -/
structure InAnotherRoom where
  wall_width : ℝ
  wall_attenuation_factor : ℝ
  cutoff_frequency : ℝ

/-- The `SourceInfo` pose snapshot of `src/lib.rs` (listener-relative
position, facing direction, and optional room membership). -/
structure SourceInfo where
  relative_position : Vector3
  direction : Vector3
  room : Option InAnotherRoom

/-- The `Default` impl for `SourceInfo`. -/
def SourceInfo.default : SourceInfo :=
  ⟨⟨0, 0, 0⟩, ⟨1, 0, 0⟩, none⟩

/-- The function `room_amplitude_factor` of `src/lib.rs`: the amplitude
factor `exp(-wall_width * wall_attenuation_factor)` for an occupied room,
and `1.0` with no room. -/
def room_amplitude_factor (room : Option InAnotherRoom) : ℝ :=
  match room with
  | some r => Real.exp (-r.wall_width * r.wall_attenuation_factor)
  | none => 1

/-- The reference distance hard-coded in `run_out`
(`1.0 / (1.0 + (distance / 10.0).powi(2))`). -/
def D0 : ℝ := 10

/-- Distance attenuation as computed by the control loop of `run_out`,
with the reference distance as a parameter. -/
def distanceAttenuation (refDist d : ℝ) : ℝ :=
  1 / (1 + (d / refDist) ^ 2)

/-- Left panning gain from the orientation coefficient
(`left_amp.set_value((1.0 + coeff) / 2.0)` in `run_out`). -/
def left_gain (c : ℝ) : ℝ :=
  (1 + c) / 2

/-- Right panning gain from the orientation coefficient
(`right_amp.set_value((1.0 - coeff) / 2.0)` in `run_out`). -/
def right_gain (c : ℝ) : ℝ :=
  (1 - c) / 2

/-- The orientation coefficient of `run_out`:
`uv = relative_position.cross(direction)`;
`coeff = (uv.norm() / distance) * uv.dot(-UP_VECTOR).signum()`.
`none` records that the `f32` computation produced a non-finite value
(the division by a zero distance). -/
def coeff (info : SourceInfo) : Option ℝ :=
  let uv := info.relative_position.cross info.direction
  (fdiv uv.norm info.relative_position.norm).map
    (fun q => q * signum (uv.dot UP_VECTOR.neg))

/-- State carried across control-loop ticks in `run_out`: the local
variables `in_room` and `room_amplitude`, the shared control variables
`left_amp`, `right_amp` and `amplitude` (which hold their last published
values), the queue of the bounded settings channel feeding the material
filter, and a count of settings successfully sent on it.  Gains are
`Option ℝ` because a NaN can be published into them. -/
structure LoopState where
  in_room : Bool
  room_amplitude : ℝ
  left_amp : Option ℝ
  right_amp : Option ℝ
  amplitude : ℝ
  settings_queue : List ℝ
  sent_count : ℕ

/-- The state at entry of the control loop: `in_room = false`,
`room_amplitude = 1.0`, and the shared variables as created
(`shared(1.0)` each); empty settings channel. -/
def initState : LoopState :=
  ⟨false, 1, some 1, some 1, 1, [], 0⟩

/-- One control-loop tick of `run_out` (the body of the `loop`).  `none`
for the snapshot models a failed `source_info.try_read()`, in which case
the whole body is skipped.  `cap` is the capacity of the bounded settings
channel; a failed `try_send` on it hits the `expect` and panics, modelled
as `Except.error` with the panic message.  The setting sent on an
Outside→Inside edge is `Setting::center(10.0)`, recorded as the value
`10` on the channel. -/
def step (cap : ℕ) (s : LoopState) (snapshot : Option SourceInfo) :
    Except String LoopState :=
  match snapshot with
  | none => Except.ok s
  | some info =>
    let distance := info.relative_position.norm
    let amp := distanceAttenuation D0 distance
    let c := coeff info
    let s1 : LoopState :=
      { s with left_amp := c.map left_gain, right_amp := c.map right_gain }
    match info.room, s1.in_room with
    | some room, false =>
      if s1.settings_queue.length < cap then
        Except.ok
          { s1 with
            in_room := true
            room_amplitude := room_amplitude_factor (some room)
            settings_queue := s1.settings_queue ++ [10]
            sent_count := s1.sent_count + 1
            amplitude := amp * room_amplitude_factor (some room) }
      else
        Except.error "Failed to send setting to material filter."
    | some _, true =>
      Except.ok { s1 with amplitude := amp * s1.room_amplitude }
    | none, true =>
      Except.ok
        { s1 with
          in_room := false
          room_amplitude := room_amplitude_factor none
          amplitude := amp * room_amplitude_factor none }
    | none, false =>
      Except.ok { s1 with amplitude := amp * s1.room_amplitude }

/-- A run of consecutive control-loop ticks over a list of snapshot
read outcomes. -/
def run (cap : ℕ) (s : LoopState) : List (Option SourceInfo) →
    Except String LoopState
  | [] => Except.ok s
  | i :: rest => (step cap s i).bind fun s2 => run cap s2 rest

/-- The `tick` of the live-capture `InputNode`: `try_recv` on the frame
channel (modelled as a front-pop on a list), with `(0.0, 0.0)` on an
empty channel (`unwrap_or((0.0, 0.0))`).  Returns the produced frame and
the remaining channel content. -/
def InputNode.tick (q : List (ℝ × ℝ)) : (ℝ × ℝ) × List (ℝ × ℝ) :=
  match q with
  | [] => ((0, 0), [])
  | fr :: rest => (fr, rest)

/-- Non-blocking bounded-channel send (`Sender::try_send`): appends when
the queue holds fewer than `cap` elements and reports `true`, otherwise
leaves the queue unchanged and reports `false`.  Total, hence it returns
at once in every case. -/
def try_send (cap : ℕ) (q : List (ℝ × ℝ)) (fr : ℝ × ℝ) :
    List (ℝ × ℝ) × Bool :=
  if q.length < cap then (q ++ [fr], true) else (q, false)

/-- Rust slice `chunks(n)` for `n ≥ 1`: consecutive sublists of length
`n`, the last possibly shorter.  (Rust panics on `n = 0`; this embedding
is never used with `0`.) -/
def chunksOf (n : ℕ) (l : List ℝ) : List (List ℝ) :=
  match l with
  | [] => []
  | x :: xs => (x :: xs.take (n - 1)) :: chunksOf n (xs.drop (n - 1))
termination_by l.length
decreasing_by
  simp only [List.length_drop, List.length_cons]
  omega

/-- The per-frame channel split of `read_data`: `left` takes the last
even-indexed sample of the frame, `right` the last odd-indexed one, both
starting at `0.0`. -/
def extract_frame (frame : List ℝ) : ℝ × ℝ :=
  frame.enum.foldl
    (fun lr cs => if cs.1 % 2 = 0 then (cs.2, lr.2) else (lr.1, cs.2))
    ((0 : ℝ), (0 : ℝ))

/-- The function `read_data` of `src/lib.rs`: split the interleaved input
into frames of `channels` samples, extract a stereo pair from each, and
`try_send` it on the bounded capture channel, discarding the result
(`if let Ok(()) = sender.try_send((left, right)) {}`).  Returns the final
channel content. -/
def read_data (input : List ℝ) (channels cap : ℕ) (q : List (ℝ × ℝ)) :
    List (ℝ × ℝ) :=
  (chunksOf channels input).foldl
    (fun acc frame => (try_send cap acc (extract_frame frame)).1) q

/-! Helper lemmas about the embedded vector operations. -/

theorem Vector3.norm_nonneg (v : Vector3) : 0 ≤ v.norm :=
  Real.sqrt_nonneg _

theorem Vector3.norm_zero_vec : Vector3.norm ⟨0, 0, 0⟩ = 0 := by
  simp [Vector3.norm]

theorem Vector3.norm_pos (v : Vector3) (h : v ≠ ⟨0, 0, 0⟩) : 0 < v.norm := by
  have hs : 0 < v.x ^ 2 + v.y ^ 2 + v.z ^ 2 := by
    rcases lt_or_eq_of_le (by positivity : (0 : ℝ) ≤ v.x ^ 2 + v.y ^ 2 + v.z ^ 2)
      with hlt | heq
    · exact hlt
    · exfalso
      apply h
      have hx : v.x = 0 := by nlinarith [sq_nonneg v.x, sq_nonneg v.y, sq_nonneg v.z]
      have hy : v.y = 0 := by nlinarith [sq_nonneg v.x, sq_nonneg v.y, sq_nonneg v.z]
      have hz : v.z = 0 := by nlinarith [sq_nonneg v.x, sq_nonneg v.y, sq_nonneg v.z]
      cases v
      simp only [Vector3.mk.injEq]
      exact ⟨hx, hy, hz⟩
  simpa [Vector3.norm] using Real.sqrt_pos.mpr hs

theorem signum_eq_one_or_neg_one (x : ℝ) : signum x = 1 ∨ signum x = -1 := by
  unfold signum
  split <;> simp

/-- C1: the claim asserts that at distance 0 the orientation coefficient
is 0 and no NaN/Inf reaches the gains.  The code has no such guard: at a
zero position the cross product is zero, so `coeff` is
`(0.0/0.0) * signum(0.0) = NaN`, and that NaN is published into both the
left and the right gain (`none` marks the non-finite value).  This
contradicts the claim at the concrete snapshot
`position = (0,0,0)`, `direction = (1,0,0)`, `room = None`. -/
theorem C1_zero_distance_pushes_nan_gains :
    coeff ⟨⟨0, 0, 0⟩, ⟨1, 0, 0⟩, none⟩ = none ∧
    (step 16 initState (some ⟨⟨0, 0, 0⟩, ⟨1, 0, 0⟩, none⟩)).map
        LoopState.left_amp = Except.ok none ∧
    (step 16 initState (some ⟨⟨0, 0, 0⟩, ⟨1, 0, 0⟩, none⟩)).map
        LoopState.right_amp = Except.ok none := by
  have hc : coeff ⟨⟨0, 0, 0⟩, ⟨1, 0, 0⟩, none⟩ = none := by
    simp [coeff, fdiv, Vector3.norm, Vector3.cross]
  refine ⟨hc, ?_, ?_⟩ <;> simp [step, hc, initState, Except.map]

/-- C5: `room_amplitude_factor` returns
`exp(-wall_width * wall_attenuation_factor)` for an occupied room and `1`
for `None`, and for positive wall width and positive attenuation factor
the result lies in `(0, 1]`. -/
theorem C5_room_amplitude_factor_range (r : InAnotherRoom)
    (hw : 0 < r.wall_width) (ha : 0 < r.wall_attenuation_factor) :
    room_amplitude_factor (some r)
        = Real.exp (-(r.wall_width * r.wall_attenuation_factor)) ∧
    room_amplitude_factor none = 1 ∧
    0 < room_amplitude_factor (some r) ∧
    room_amplitude_factor (some r) ≤ 1 := by
  refine ⟨by simp [room_amplitude_factor], rfl, ?_, ?_⟩
  · simpa [room_amplitude_factor] using
      Real.exp_pos (-r.wall_width * r.wall_attenuation_factor)
  · have harg : -r.wall_width * r.wall_attenuation_factor ≤ 0 := by nlinarith
    simpa [room_amplitude_factor] using Real.exp_le_one_iff.mpr harg

/-- Witness for C5 at the concrete room
`wall_width = 1`, `wall_attenuation_factor = 1`, `cutoff_frequency = 1`. -/
theorem C5_room_amplitude_factor_range_witness :
    (0 : ℝ) < 1 ∧
    (room_amplitude_factor (some ⟨1, 1, 1⟩) = Real.exp (-(1 * 1)) ∧
      room_amplitude_factor none = 1 ∧
      0 < room_amplitude_factor (some ⟨1, 1, 1⟩) ∧
      room_amplitude_factor (some ⟨1, 1, 1⟩) ≤ 1) :=
  ⟨by norm_num,
    C5_room_amplitude_factor_range ⟨1, 1, 1⟩ (by norm_num) (by norm_num)⟩

/-- C7: a tick of the live-capture input node on an empty capture queue
returns the silent frame `(0, 0)` (and, being a total function of the
queue, returns at once rather than waiting). -/
theorem C7_underrun_returns_silence :
    InputNode.tick [] = ((0, 0), []) := rfl

/-- C9: a control-loop tick whose non-blocking `try_read` of the pose
snapshot fails surfaces no error and leaves every published gain
parameter and the room-membership state exactly as they were. -/
theorem C9_failed_read_is_noop (cap : ℕ) (s : LoopState) :
    step cap s none = Except.ok s := rfl

/-- C10: when an Outside→Inside room transition is observed but the
bounded settings channel is full, the `try_send` fails and the `expect`
panics with `Failed to send setting to material filter.` — the control
loop does not skip the update or reuse the last value. -/
theorem C10_full_settings_channel_panics (cap : ℕ) (s : LoopState)
    (info : SourceInfo) (r : InAnotherRoom)
    (hin : s.in_room = false) (hroom : info.room = some r)
    (hfull : cap ≤ s.settings_queue.length) :
    step cap s (some info) =
      Except.error "Failed to send setting to material filter." := by
  simp [step, hroom, hin, not_lt.mpr hfull]

/-- Witness for C10: capacity-0 settings channel, initial state, and a
snapshot that enters a room. -/
theorem C10_full_settings_channel_panics_witness :
    initState.in_room = false ∧
    (SourceInfo.room ⟨⟨1, 0, 0⟩, ⟨1, 0, 0⟩, some ⟨1, 1, 1⟩⟩
        = some ⟨1, 1, 1⟩) ∧
    0 ≤ initState.settings_queue.length ∧
    step 0 initState (some ⟨⟨1, 0, 0⟩, ⟨1, 0, 0⟩, some ⟨1, 1, 1⟩⟩) =
      Except.error "Failed to send setting to material filter." :=
  ⟨rfl, rfl, Nat.zero_le _,
    C10_full_settings_channel_panics 0 initState
      ⟨⟨1, 0, 0⟩, ⟨1, 0, 0⟩, some ⟨1, 1, 1⟩⟩ ⟨1, 1, 1⟩ rfl rfl (Nat.zero_le _)⟩

/-- C2 (counterexample): the claim predicts exactly two filter-cutoff
change events for a `None → Some(params) → None` membership sequence over
three consecutive ticks.  The code sends a setting only on the
Outside→Inside edge — the Inside→Outside branch restores the amplitude
factor but sends nothing — so that run produces exactly one event, not
two. -/
theorem C2_three_tick_sequence_one_push :
    (run 4 initState
        [some ⟨⟨1, 0, 0⟩, ⟨1, 0, 0⟩, none⟩,
          some ⟨⟨1, 0, 0⟩, ⟨1, 0, 0⟩, some ⟨1, 1, 1⟩⟩,
          some ⟨⟨1, 0, 0⟩, ⟨1, 0, 0⟩, none⟩]).map LoopState.sent_count
      = Except.ok 1 ∧ (1 : ℕ) ≠ 2 := by
  constructor
  · simp [run, step, initState, Except.map, Except.bind]
  · decide

/-- C2 (amended): when the settings channel has room, a control-loop tick
pushes a filter-cutoff setting exactly when it observes an
Outside→Inside membership edge; it pushes nothing on ticks with unchanged
membership and nothing on an Inside→Outside edge (so a
`None → Some → None` sequence yields one event, not two). -/
theorem C2_cutoff_push_only_on_entry_edge (cap : ℕ) (s : LoopState)
    (info : SourceInfo) (hcap : s.settings_queue.length < cap) :
    (step cap s (some info)).map LoopState.sent_count =
      Except.ok (if s.in_room = false ∧ info.room.isSome = true
        then s.sent_count + 1 else s.sent_count) ∧
    (step cap s (some info)).map LoopState.settings_queue =
      Except.ok (if s.in_room = false ∧ info.room.isSome = true
        then s.settings_queue ++ [10] else s.settings_queue) := by
  cases hroom : info.room <;> cases hin : s.in_room <;>
    simp [step, hroom, hin, hcap, Except.map]

/-- Witness for the amended C2: entering a room from the initial state
with a capacity-1 settings channel pushes exactly one setting. -/
theorem C2_cutoff_push_only_on_entry_edge_witness :
    initState.settings_queue.length < 1 ∧
    ((step 1 initState
          (some ⟨⟨1, 0, 0⟩, ⟨1, 0, 0⟩, some ⟨1, 1, 1⟩⟩)).map
        LoopState.sent_count =
      Except.ok (if initState.in_room = false ∧
          (SourceInfo.room
            ⟨⟨1, 0, 0⟩, ⟨1, 0, 0⟩, some ⟨1, 1, 1⟩⟩).isSome = true
        then initState.sent_count + 1 else initState.sent_count) ∧
    (step 1 initState
          (some ⟨⟨1, 0, 0⟩, ⟨1, 0, 0⟩, some ⟨1, 1, 1⟩⟩)).map
        LoopState.settings_queue =
      Except.ok (if initState.in_room = false ∧
          (SourceInfo.room
            ⟨⟨1, 0, 0⟩, ⟨1, 0, 0⟩, some ⟨1, 1, 1⟩⟩).isSome = true
        then initState.settings_queue ++ [10]
        else initState.settings_queue)) :=
  ⟨by simp [initState],
    C2_cutoff_push_only_on_entry_edge 1 initState
      ⟨⟨1, 0, 0⟩, ⟨1, 0, 0⟩, some ⟨1, 1, 1⟩⟩ (by simp [initState])⟩

/-- C8: a push onto a full capture queue returns at once with the queue
unchanged and a `false` flag that `read_data` discards, so no error is
propagated; and in the concrete scenario — capacity 4, five interleaved
stereo frames pushed with no consumption — exactly the first four frames
end up queued, so exactly one of the five pushes was dropped. -/
theorem C8_full_queue_push_drops (cap : ℕ) (q : List (ℝ × ℝ))
    (fr : ℝ × ℝ) (h : cap ≤ q.length) :
    try_send cap q fr = (q, false) ∧
    read_data [1, 2, 3, 4, 5, 6, 7, 8, 9, 10] 2 4 []
      = [(1, 2), (3, 4), (5, 6), (7, 8)] ∧
    (read_data [1, 2, 3, 4, 5, 6, 7, 8, 9, 10] 2 4 []).length + 1 = 5 := by
  have hscenario : read_data [1, 2, 3, 4, 5, 6, 7, 8, 9, 10] 2 4 []
      = [(1, 2), (3, 4), (5, 6), (7, 8)] := by
    norm_num [read_data, chunksOf, extract_frame, try_send,
      List.enum, List.enumFrom]
  refine ⟨by simp [try_send, not_lt.mpr h], hscenario, ?_⟩
  rw [hscenario]
  simp

/-- Witness for C8: a push onto a queue already holding `cap = 2` frames
is rejected and drops the frame. -/
theorem C8_full_queue_push_drops_witness :
    2 ≤ ([((0 : ℝ), (0 : ℝ)), (0, 0)] : List (ℝ × ℝ)).length ∧
    (try_send 2 [((0 : ℝ), (0 : ℝ)), (0, 0)] (5, 5)
        = ([((0 : ℝ), (0 : ℝ)), (0, 0)], false) ∧
    read_data [1, 2, 3, 4, 5, 6, 7, 8, 9, 10] 2 4 []
      = [(1, 2), (3, 4), (5, 6), (7, 8)] ∧
    (read_data [1, 2, 3, 4, 5, 6, 7, 8, 9, 10] 2 4 []).length + 1 = 5) :=
  ⟨by simp, C8_full_queue_push_drops 2 [(0, 0), (0, 0)] (5, 5) (by simp)⟩

/-- C3 (counterexample): with position `(1,0,0)` and the non-unit facing
direction `(0,0,2)` the control loop produces the orientation coefficient
`2`, whose gains — `3/2` on the left, `-1/2` on the right — do not lie in
`[0,1]`, refuting the claim that every produced coefficient yields gains
in `[0,1]`. -/
theorem C3_gains_escape_unit_interval :
    coeff ⟨⟨1, 0, 0⟩, ⟨0, 0, 2⟩, none⟩ = some 2 ∧
    left_gain 2 = 3 / 2 ∧ ¬ left_gain 2 ≤ 1 ∧
    right_gain 2 = -(1 / 2) ∧ ¬ 0 ≤ right_gain 2 := by
  have h4 : Real.sqrt 4 = 2 := by
    rw [show (4 : ℝ) = 2 ^ 2 by norm_num]
    exact Real.sqrt_sq (by norm_num)
  refine ⟨?_, by norm_num [left_gain], by norm_num [left_gain],
    by norm_num [right_gain], by norm_num [right_gain]⟩
  norm_num [coeff, Vector3.cross, Vector3.norm, Vector3.dot, Vector3.neg,
    UP_VECTOR, fdiv, signum, h4]

/-- C3 (amended): for every snapshot with nonzero position the produced
orientation coefficient is a finite value `c`, the gains are `(1+c)/2`
and `(1-c)/2` and always sum to `1`; whenever additionally
`‖position × direction‖ ≤ ‖position‖` — in particular for a unit-length
facing direction — both gains lie in `[0,1]`. -/
theorem C3_gain_invariants (info : SourceInfo)
    (hp : info.relative_position ≠ ⟨0, 0, 0⟩) :
    ∃ c : ℝ, coeff info = some c ∧
      left_gain c = (1 + c) / 2 ∧ right_gain c = (1 - c) / 2 ∧
      left_gain c + right_gain c = 1 ∧
      ((info.relative_position.cross info.direction).norm ≤
          info.relative_position.norm →
        0 ≤ left_gain c ∧ left_gain c ≤ 1 ∧
        0 ≤ right_gain c ∧ right_gain c ≤ 1) := by
  have hd : 0 < info.relative_position.norm := Vector3.norm_pos _ hp
  refine ⟨(info.relative_position.cross info.direction).norm /
      info.relative_position.norm *
      signum ((info.relative_position.cross info.direction).dot
        UP_VECTOR.neg), ?_, rfl, rfl, ?_, ?_⟩
  · simp [coeff, fdiv, hd.ne']
  · unfold left_gain right_gain
    ring
  · intro hle
    have hq0 : 0 ≤ (info.relative_position.cross info.direction).norm /
        info.relative_position.norm :=
      div_nonneg (Vector3.norm_nonneg _) hd.le
    have hq1 : (info.relative_position.cross info.direction).norm /
        info.relative_position.norm ≤ 1 :=
      (div_le_one hd).mpr hle
    rcases signum_eq_one_or_neg_one
        ((info.relative_position.cross info.direction).dot UP_VECTOR.neg)
      with hs | hs <;>
      rw [hs] <;> unfold left_gain right_gain <;>
      refine ⟨by linarith, by linarith, by linarith, by linarith⟩

/-- Witness for the amended C3 at position `(1,0,0)`, unit direction
`(0,1,0)`. -/
theorem C3_gain_invariants_witness :
    (SourceInfo.relative_position ⟨⟨1, 0, 0⟩, ⟨0, 1, 0⟩, none⟩
        ≠ ⟨0, 0, 0⟩) ∧
    (∃ c : ℝ, coeff ⟨⟨1, 0, 0⟩, ⟨0, 1, 0⟩, none⟩ = some c ∧
      left_gain c = (1 + c) / 2 ∧ right_gain c = (1 - c) / 2 ∧
      left_gain c + right_gain c = 1 ∧
      (((⟨⟨1, 0, 0⟩, ⟨0, 1, 0⟩, none⟩ :
            SourceInfo).relative_position.cross
          (⟨⟨1, 0, 0⟩, ⟨0, 1, 0⟩, none⟩ : SourceInfo).direction).norm ≤
          (⟨⟨1, 0, 0⟩, ⟨0, 1, 0⟩, none⟩ :
            SourceInfo).relative_position.norm →
        0 ≤ left_gain c ∧ left_gain c ≤ 1 ∧
        0 ≤ right_gain c ∧ right_gain c ≤ 1)) :=
  ⟨by simp, C3_gain_invariants ⟨⟨1, 0, 0⟩, ⟨0, 1, 0⟩, none⟩ (by simp)⟩

/-- C4: for a positive reference distance the attenuation computed by the
control loop is `1/(1+(d/D0)^2)`; it equals `1` at distance `0`, is
strictly decreasing on nonnegative distances, and tends to `0` as the
distance tends to infinity.  The control loop uses it with the
hard-coded reference distance `D0 = 10`. -/
theorem C4_distance_attenuation_shape (refDist : ℝ) (hD : 0 < refDist) :
    (∀ d : ℝ, distanceAttenuation refDist d = 1 / (1 + (d / refDist) ^ 2)) ∧
    distanceAttenuation refDist 0 = 1 ∧
    (∀ d1 d2 : ℝ, 0 ≤ d1 → d1 < d2 →
      distanceAttenuation refDist d2 < distanceAttenuation refDist d1) ∧
    Tendsto (distanceAttenuation refDist) atTop (nhds 0) := by
  refine ⟨fun d => rfl, by simp [distanceAttenuation], ?_, ?_⟩
  · intro d1 d2 h0 h12
    unfold distanceAttenuation
    have hq : d1 / refDist < d2 / refDist :=
      (div_lt_div_iff_of_pos_right hD).mpr h12
    have hsq : (d1 / refDist) ^ 2 < (d2 / refDist) ^ 2 :=
      pow_lt_pow_left₀ hq (by positivity) (by norm_num)
    exact one_div_lt_one_div_of_lt (by positivity) (by linarith)
  · have h1 : Tendsto (fun d : ℝ => d / refDist) atTop atTop :=
      Tendsto.atTop_div_const hD tendsto_id
    have h2 : Tendsto (fun d : ℝ => (d / refDist) ^ 2) atTop atTop := by
      simpa [Function.comp] using
        (tendsto_pow_atTop (by norm_num : (2 : ℕ) ≠ 0)).comp h1
    have h3 : Tendsto (fun d : ℝ => 1 + (d / refDist) ^ 2) atTop atTop :=
      tendsto_atTop_add_const_left atTop 1 h2
    have heq : distanceAttenuation refDist =
        (fun d : ℝ => 1 + (d / refDist) ^ 2)⁻¹ := by
      funext d
      simp [distanceAttenuation, one_div, Pi.inv_apply]
    rw [heq]
    exact h3.inv_tendsto_atTop

/-- Witness for C4 at the reference distance the code hard-codes,
`D0 = 10`. -/
theorem C4_distance_attenuation_shape_witness :
    (0 : ℝ) < D0 ∧
    ((∀ d : ℝ, distanceAttenuation D0 d = 1 / (1 + (d / D0) ^ 2)) ∧
      distanceAttenuation D0 0 = 1 ∧
      (∀ d1 d2 : ℝ, 0 ≤ d1 → d1 < d2 →
        distanceAttenuation D0 d2 < distanceAttenuation D0 d1) ∧
      Tendsto (distanceAttenuation D0) atTop (nhds 0)) :=
  ⟨by norm_num [D0],
    C4_distance_attenuation_shape D0 (by norm_num [D0])⟩

/-- C6: every control-loop tick that reads a snapshot and completes
publishes `amplitude = distanceAttenuation · roomAmplitudeFactor`; the
factor is `1` whenever the tick ends with the listener outside a room
(assuming it was `1` while outside before, as in the initial state), it
becomes `exp(-wall_width · wall_attenuation_factor)` of the entered room
on an Outside→Inside edge, and it is held while the listener stays
inside. -/
theorem C6_published_amplitude (cap : ℕ) (s s2 : LoopState)
    (info : SourceInfo)
    (hout : s.in_room = false → s.room_amplitude = 1)
    (h : step cap s (some info) = Except.ok s2) :
    s2.amplitude =
      distanceAttenuation D0 info.relative_position.norm *
        s2.room_amplitude ∧
    (s2.in_room = false → s2.room_amplitude = 1) ∧
    (∀ r : InAnotherRoom, s.in_room = false → info.room = some r →
      s2.room_amplitude =
        Real.exp (-r.wall_width * r.wall_attenuation_factor)) ∧
    (s.in_room = true → info.room.isSome = true →
      s2.room_amplitude = s.room_amplitude) := by
  cases hroom : info.room with
  | none =>
    cases hin : s.in_room with
    | false =>
      simp [step, hroom, hin] at h
      subst h
      simp [hroom, hin, hout hin]
    | true =>
      simp [step, hroom, hin, room_amplitude_factor] at h
      subst h
      simp [hroom, hin]
  | some r =>
    cases hin : s.in_room with
    | false =>
      simp [step, hroom, hin] at h
      split at h
      · simp only [Except.ok.injEq] at h
        subst h
        simp [hroom, hin, room_amplitude_factor]
      · exact absurd h (by simp)
    | true =>
      simp [step, hroom, hin] at h
      subst h
      simp [hroom, hin]

/-- Witness for C6: the first tick from the initial state with the
default snapshot (origin position, no room). -/
theorem C6_published_amplitude_witness :
    (initState.in_room = false → initState.room_amplitude = 1) ∧
    (step 16 initState (some SourceInfo.default) = Except.ok
      { initState with
        left_amp := none
        right_amp := none
        amplitude :=
          distanceAttenuation D0
            (SourceInfo.default.relative_position.norm) *
            initState.room_amplitude }) ∧
    (({ initState with
        left_amp := none
        right_amp := none
        amplitude :=
          distanceAttenuation D0
            (SourceInfo.default.relative_position.norm) *
            initState.room_amplitude } : LoopState).amplitude =
      distanceAttenuation D0 SourceInfo.default.relative_position.norm *
        ({ initState with
          left_amp := none
          right_amp := none
          amplitude :=
            distanceAttenuation D0
              (SourceInfo.default.relative_position.norm) *
              initState.room_amplitude } : LoopState).room_amplitude ∧
    (({ initState with
        left_amp := none
        right_amp := none
        amplitude :=
          distanceAttenuation D0
            (SourceInfo.default.relative_position.norm) *
            initState.room_amplitude } : LoopState).in_room = false →
      ({ initState with
        left_amp := none
        right_amp := none
        amplitude :=
          distanceAttenuation D0
            (SourceInfo.default.relative_position.norm) *
            initState.room_amplitude } : LoopState).room_amplitude = 1) ∧
    (∀ r : InAnotherRoom, initState.in_room = false →
      SourceInfo.default.room = some r →
      ({ initState with
        left_amp := none
        right_amp := none
        amplitude :=
          distanceAttenuation D0
            (SourceInfo.default.relative_position.norm) *
            initState.room_amplitude } : LoopState).room_amplitude =
        Real.exp (-r.wall_width * r.wall_attenuation_factor)) ∧
    (initState.in_room = true → SourceInfo.default.room.isSome = true →
      ({ initState with
        left_amp := none
        right_amp := none
        amplitude :=
          distanceAttenuation D0
            (SourceInfo.default.relative_position.norm) *
            initState.room_amplitude } : LoopState).room_amplitude =
        initState.room_amplitude)) := by
  have hstep : step 16 initState (some SourceInfo.default) = Except.ok
      { initState with
        left_amp := none
        right_amp := none
        amplitude :=
          distanceAttenuation D0
            (SourceInfo.default.relative_position.norm) *
            initState.room_amplitude } := by
    have hc : coeff SourceInfo.default = none := by
      simp [coeff, SourceInfo.default, fdiv, Vector3.norm, Vector3.cross]
    simp [step, SourceInfo.default, initState, hc, coeff, fdiv,
      Vector3.norm, Vector3.cross]
  exact ⟨fun _ => rfl, hstep,
    C6_published_amplitude 16 initState _ SourceInfo.default
      (fun _ => rfl) hstep⟩

end VoiceImmersion
